import Mathlib

set_option maxRecDepth 8000

/-!
Shallow embedding of the Caribbean payroll calculation engine.

Monetary amounts (Python Decimal) are embedded as rationals with exact
arithmetic; `round_currency` embeds quantization to two fractional digits
with ROUND_HALF_UP (ties away from zero).  The mutable calculator state
(line items, warnings, calculation notes) is threaded explicitly.  Python
dictionaries are embedded as association lists in insertion order.  The
external monthly tax table (a CSV read by the Curacao calculator) is
embedded as an optional list of parsed rows, `none` standing for a missing
or unreadable source.  Number formatting inside derivation strings is
embedded structurally via `toString`.
-/

/-- Two-decimal currency rounding, half away from zero: embeds
`Decimal.quantize` at two fractional digits with ROUND_HALF_UP. -/
def round_currency (x : ℚ) : ℚ :=
  if 0 ≤ x then ((⌊x * 100 + 1/2⌋ : ℤ) : ℚ) / 100
  else -(((⌊-x * 100 + 1/2⌋ : ℤ) : ℚ) / 100)

/-- Embeds `EmployeeInput` (app/models): the fields the engine reads. -/
structure EmployeeInput where
  employee_id : String
  name : String
  jurisdiction : String
  gross_salary : ℚ
  hourly_rate : Option ℚ
  regular_hours : ℚ
  overtime_hours : ℚ
  allowances : List (String × ℚ)
  deductions : List (String × ℚ)
  tax_exempt : Bool
  tax_percentage : Option ℚ
  dependents : ℕ
  aov_exempt : Bool
  aww_exempt : Bool
deriving Repr, DecidableEq

/-- Embeds `PayrollLineItem` (app/models). -/
structure PayrollLineItem where
  code : String
  name : String
  category : String
  amount : ℚ
  rate : Option ℚ
  base_amount : Option ℚ
  notes : Option String
deriving Repr, DecidableEq

/-- The mutable accumulator fields of `BasePayrollCalculator`
(line_items, warnings, notes), threaded explicitly. -/
structure CalcState where
  line_items : List PayrollLineItem
  warnings : List String
  notes : List String
deriving Repr, DecidableEq

/-- The empty state installed at the start of every `calculate` run. -/
def initState : CalcState := ⟨[], [], []⟩

/-- Embeds `BasePayrollCalculator.add_line_item`: rounds the amount to
currency precision and appends the item. -/
def add_line_item (s : CalcState) (code name category : String) (amount : ℚ)
    (rate : Option ℚ) (base_amount : Option ℚ) (itemNotes : Option String) : CalcState :=
  { s with line_items :=
      s.line_items ++ [⟨code, name, category, round_currency amount, rate, base_amount, itemNotes⟩] }

/-- Embeds Python `str.title` on the character list: the first alphabetic
character of every maximal alphabetic run is uppercased, the rest lowercased. -/
def titleChars : Bool → List Char → List Char
  | _, [] => []
  | prevAlpha, c :: cs =>
    (if c.isAlpha then (if prevAlpha then c.toLower else c.toUpper) else c) :: titleChars c.isAlpha cs

/-- Embeds the display-name derivation used for allowance and deduction
line items in the source. -/
def display_name (code : String) : String :=
  String.mk (titleChars false (String.map (fun c => if c = '_' then ' ' else c) code).data)

/-- Embeds the derivation fragment of one applied bracket in
`calculate_progressive_tax`. -/
def percentFragment (rate bracket_amount : ℚ) : String :=
  toString (rate * 100) ++ "% on " ++ toString bracket_amount

/-- Embeds the bracket loop of `BasePayrollCalculator.calculate_progressive_tax`:
stops at the first bracket whose lower bound is at least the taxable amount,
otherwise accumulates rate times the capped slice and one derivation fragment. -/
def progressive_tax_loop (taxable_amount : ℚ) : List (ℚ × ℚ × ℚ) → ℚ × List String
  | [] => (0, [])
  | (lower, upper, rate) :: rest =>
    if taxable_amount ≤ lower then (0, [])
    else
      let bracket_amount := min taxable_amount upper - lower
      let tail := progressive_tax_loop taxable_amount rest
      (bracket_amount * rate + tail.1, percentFragment rate bracket_amount :: tail.2)

/-- Embeds `BasePayrollCalculator.calculate_progressive_tax`. -/
def calculate_progressive_tax (taxable_amount : ℚ) (brackets : List (ℚ × ℚ × ℚ)) : ℚ × String :=
  let r := progressive_tax_loop taxable_amount brackets
  (round_currency r.1, if r.2.isEmpty then ("No tax") else String.intercalate (" + ") r.2)

/-- Embeds `BasePayrollCalculator.calculate_other_deductions`: one DEDUCTION
line item per entry of the employee deduction mapping, returning the
unrounded sum. -/
def calculate_other_deductions (employee : EmployeeInput) (s : CalcState) : ℚ × CalcState :=
  employee.deductions.foldl
    (fun acc kv =>
      (acc.1 + kv.2,
        add_line_item acc.2 ("DED_" ++ kv.1.toUpper) (display_name kv.1) ("DEDUCTION")
          kv.2 none none none))
    ((0 : ℚ), s)

/-- The abstract-method surface of `BasePayrollCalculator`: one record of
stage functions per jurisdiction. -/
structure Calculator where
  calculate_gross : EmployeeInput → CalcState → ℚ × CalcState
  calculate_tax : EmployeeInput → ℚ → CalcState → ℚ × CalcState
  calculate_social_security : EmployeeInput → ℚ → CalcState → List (String × ℚ) × CalcState

/-- The fixed statutory-code set of `BasePayrollCalculator.calculate`. -/
def statutory_codes : List String := ["TAX", "AOV", "AWW", "CESANTIA", "SOCIAL_SEC"]

/-- Sum of the values of a contribution mapping (Python `sum(d.values())`). -/
def sum_values (l : List (String × ℚ)) : ℚ := l.foldl (fun a kv => a + kv.2) 0

/-- Embeds `PayrollCalculationResult` (app/models); the three groupings are
kept as association lists in ledger order. -/
structure PayrollCalculationResult where
  employee_id : String
  jurisdiction : String
  gross_total : ℚ
  deductions_total : ℚ
  net_salary : ℚ
  line_items : List PayrollLineItem
  earnings : List (String × ℚ)
  statutory_deductions : List (String × ℚ)
  other_deductions : List (String × ℚ)
  calculation_notes : List String
  warnings : List String
deriving Repr, DecidableEq

/-- Embeds `BasePayrollCalculator.calculate`: the four stages in order, the
unrounded deductions sum, the net computation that starts from base salary
and adds every allowance whose lowercased label is not phone or telefoon,
and the grouping of ledger entries by category and statutory code. -/
def calculate (c : Calculator) (employee : EmployeeInput) : PayrollCalculationResult :=
  let g := c.calculate_gross employee initState
  let gross_total := g.1
  let t := c.calculate_tax employee gross_total g.2
  let tax_amount := t.1
  let ss := c.calculate_social_security employee gross_total t.2
  let od := calculate_other_deductions employee ss.2
  let deductions_total := tax_amount + sum_values ss.1 + od.1
  let net_before := employee.allowances.foldl
    (fun acc kv => if (["phone", "telefoon"].contains kv.1.toLower) then acc else acc + kv.2)
    employee.gross_salary
  let net_salary := net_before - deductions_total
  let s := od.2
  { employee_id := employee.employee_id
    jurisdiction := employee.jurisdiction
    gross_total := round_currency gross_total
    deductions_total := round_currency deductions_total
    net_salary := round_currency net_salary
    line_items := s.line_items
    earnings := (s.line_items.filter (fun i => i.category == "EARNING")).map
      (fun i => (i.code, i.amount))
    statutory_deductions := (s.line_items.filter
      (fun i => i.category == "DEDUCTION" && statutory_codes.contains i.code)).map
      (fun i => (i.code, i.amount))
    other_deductions := (s.line_items.filter
      (fun i => i.category == "DEDUCTION" && !(statutory_codes.contains i.code))).map
      (fun i => (i.code, i.amount))
    calculation_notes := s.notes
    warnings := s.warnings }

/-- The payable gross of the specification: base salary plus every allowance
not labeled (case-insensitively) phone or telefoon; written exactly as the
net loop of `calculate` starts. -/
def payable_gross (employee : EmployeeInput) : ℚ :=
  employee.allowances.foldl
    (fun acc kv => if (["phone", "telefoon"].contains kv.1.toLower) then acc else acc + kv.2)
    employee.gross_salary

/-- The unrounded deductions sum of a `calculate` run, replayed. -/
def deductions_raw (c : Calculator) (employee : EmployeeInput) : ℚ :=
  let g := c.calculate_gross employee initState
  let t := c.calculate_tax employee g.1 g.2
  let ss := c.calculate_social_security employee g.1 t.2
  let od := calculate_other_deductions employee ss.2
  t.1 + sum_values ss.1 + od.1

/-- The unrounded gross sum of a `calculate` run, replayed. -/
def gross_raw (c : Calculator) (employee : EmployeeInput) : ℚ :=
  (c.calculate_gross employee initState).1

namespace Curacao

/-- 2026 monthly wage-tax brackets of the Curacao calculator (fallback). -/
def TAX_BRACKETS : List (ℚ × ℚ × ℚ) :=
  [((0 : ℚ), (2116.67 : ℚ), (0.0975 : ℚ)),
   ((2116.67 : ℚ), (2841.67 : ℚ), (0.15 : ℚ)),
   ((2841.67 : ℚ), (3783.33 : ℚ), (0.23 : ℚ)),
   ((3783.33 : ℚ), (5675 : ℚ), (0.30 : ℚ)),
   ((5675 : ℚ), (8041.67 : ℚ), (0.375 : ℚ)),
   ((8041.67 : ℚ), (11825 : ℚ), (0.465 : ℚ)),
   ((11825 : ℚ), (999999999 : ℚ), (0.465 : ℚ))]

def BASISAFTREK : ℚ := 2915

def VASTE_AFTREK : ℚ := 500

def AOV_AWW_EMPLOYEE_RATE : ℚ := 0.065

def AOV_AWW_MAX_ANNUAL : ℚ := 100000

def AOV_AWW_MAX_MONTHLY : ℚ := AOV_AWW_MAX_ANNUAL / 12

def KORTING_BASE : ℚ := 9340

def KORTING_PERCENTAGE : ℚ := 0.338

def KORTING_RATE : ℚ := 0.065

def KORTING_MAX_INCOME : ℚ := 27633

def BVZ_EMPLOYEE_RATE : ℚ := 0.043

def BVZ_MAX_ANNUAL : ℚ := 150000

def BVZ_MAX_MONTHLY : ℚ := BVZ_MAX_ANNUAL / 12

def BVZ_VRIJSTELLING_ANNUAL : ℚ := 12000

def BVZ_GLIDING_START : ℚ := 12000

def BVZ_GLIDING_END : ℚ := 18000

/-- The five BVZ gliding-scale sub-bands with their discount percentages. -/
def BVZ_GLIDING_SCALE : List (ℚ × ℚ × ℚ) :=
  [((12000 : ℚ), (13200 : ℚ), (0.038 : ℚ)),
   ((13200 : ℚ), (14400 : ℚ), (0.028 : ℚ)),
   ((14400 : ℚ), (15600 : ℚ), (0.019 : ℚ)),
   ((15600 : ℚ), (16800 : ℚ), (0.011 : ℚ)),
   ((16800 : ℚ), (18000 : ℚ), (0.006 : ℚ))]

def AVBZ_EMPLOYEE_RATE : ℚ := 0.015

def AVBZ_MAX_ANNUAL : ℚ := 606247.08

def AVBZ_MAX_MONTHLY : ℚ := AVBZ_MAX_ANNUAL / 12

def AVBZ_REDUCED_THRESHOLD : ℚ := 22789

def AVBZ_REDUCED_EMPLOYEE : ℚ := 0.005

def OVERTIME_MULTIPLIER : ℚ := 1.5

/-- Surrogate for the two-digit f-string formatting inside derivation
strings (Python .2f; only the structure of the note matters here). -/
def fmt2 (x : ℚ) : String := toString (round_currency x)

/-- Embeds `CuracaoCalculator.calculate_gross`: base salary, overtime (with
the Python falsy test on the optional hourly rate) and one earning per
allowance; returns the unrounded sum. -/
def calculate_gross (employee : EmployeeInput) (s : CalcState) : ℚ × CalcState :=
  let base_salary := employee.gross_salary
  let s1 := add_line_item s ("BASIC") ("Basic Salary") ("EARNING") base_salary none none none
  let afterOvertime : ℚ × CalcState :=
    if 0 < employee.overtime_hours then
      let overtime_rate :=
        match employee.hourly_rate with
        | some hr =>
          if hr = 0 then employee.gross_salary / 160 * OVERTIME_MULTIPLIER
          else hr * OVERTIME_MULTIPLIER
        | none => employee.gross_salary / 160 * OVERTIME_MULTIPLIER
      let overtime_pay := overtime_rate * employee.overtime_hours
      (base_salary + overtime_pay,
        add_line_item s1 ("OVERTIME") ("Overtime Pay") ("EARNING") overtime_pay
          (some OVERTIME_MULTIPLIER) (some overtime_rate)
          (some (toString employee.overtime_hours ++ " hours @ " ++ toString overtime_rate ++ "/hour")))
    else (base_salary, s1)
  employee.allowances.foldl
    (fun acc kv =>
      (acc.1 + kv.2,
        add_line_item acc.2 ("ALW_" ++ kv.1.toUpper) (display_name kv.1) ("EARNING")
          kv.2 none none none))
    afterOvertime

/-- Embeds `CuracaoCalculator.calculate_premium_income_monthly`. -/
def calculate_premium_income_monthly (gross : ℚ) : ℚ :=
  max (gross - VASTE_AFTREK / 12) 0

/-- Embeds `CuracaoCalculator.calculate_aov_aww_korting_monthly`. -/
def calculate_aov_aww_korting_monthly (annual_premium_income : ℚ) : ℚ :=
  if KORTING_MAX_INCOME ≤ annual_premium_income then 0
  else
    max ((KORTING_BASE - KORTING_PERCENTAGE * annual_premium_income) * KORTING_RATE) 0 / 12

/-- Embeds the scan over `BVZ_GLIDING_SCALE`. -/
def gliding_scan (annual_income : ℚ) : List (ℚ × ℚ × ℚ) → ℚ
  | [] => 0
  | (bracket_start, bracket_end, discount) :: rest =>
    if bracket_start ≤ annual_income ∧ annual_income < bracket_end then discount
    else gliding_scan annual_income rest

/-- Embeds `CuracaoCalculator.calculate_bvz_gliding_discount`. -/
def calculate_bvz_gliding_discount (annual_income : ℚ) : ℚ :=
  if annual_income < BVZ_GLIDING_START then 0
  else if BVZ_GLIDING_END ≤ annual_income then 0
  else gliding_scan annual_income BVZ_GLIDING_SCALE

/-- Embeds the instance-level `CuracaoCalculator.lookup_tax_from_table` row
loop: first row whose half-open range contains the base wins; after an
exhausted loop the last parsed row value is returned; an empty parse (an
unbound loop variable in the source, caught as an exception) yields none. -/
def lookup_rows : List (ℚ × ℚ × ℚ) → ℚ → Option ℚ → Option ℚ
  | [], _, last => last
  | (min_val, max_val, rowTax) :: rest, tax_base, _ =>
    if min_val ≤ tax_base ∧ tax_base < max_val then some rowTax
    else lookup_rows rest tax_base (some rowTax)

/-- Embeds `CuracaoCalculator.lookup_tax_from_table`; the CSV source is the
`table` parameter, `none` when the file is missing or unreadable. -/
def lookup_tax_from_table (table : Option (List (ℚ × ℚ × ℚ))) (tax_base : ℚ) : Option ℚ :=
  match table with
  | none => none
  | some rows => lookup_rows rows tax_base none

/-- Embeds `CuracaoCalculator.calculate_tax`: exemption short-circuit,
custom-percentage short-circuit, then the statutory chain (premium income,
capped AOV/AWW with korting, tax base, table lookup with bracket fallback,
basisaftrek credit floored at zero). -/
def calculate_tax (table : Option (List (ℚ × ℚ × ℚ))) (employee : EmployeeInput)
    (gross : ℚ) (s : CalcState) : ℚ × CalcState :=
  if employee.tax_exempt then
    let s1 := { s with warnings := s.warnings ++ [("Employee is tax exempt")] }
    ((0 : ℚ),
      add_line_item s1 ("TAX") ("Wage Tax (Exempt)") ("DEDUCTION") 0 none none
        (some ("Tax exempt status")))
  else
    match employee.tax_percentage with
    | some p =>
      let tax := gross * (p / 100)
      (tax,
        add_line_item s ("TAX") ("Wage Tax") ("DEDUCTION") tax (some (p / 100)) (some gross)
          (some ("Custom rate: " ++ toString p ++ "%")))
    | none =>
      let premium_income_monthly := calculate_premium_income_monthly gross
      let aov_aww_base := min premium_income_monthly AOV_AWW_MAX_MONTHLY
      let aov_aww_employee_raw := aov_aww_base * AOV_AWW_EMPLOYEE_RATE
      let premium_income_annual := premium_income_monthly * 12
      let korting_monthly :=
        if premium_income_annual < KORTING_MAX_INCOME then
          calculate_aov_aww_korting_monthly premium_income_annual
        else 0
      let aov_aww_final := max (aov_aww_employee_raw - korting_monthly) 0
      let tax_base := premium_income_monthly - aov_aww_final
      let looked := lookup_tax_from_table table tax_base
      let raw_tax :=
        match looked with
        | some t => t
        | none => (calculate_progressive_tax tax_base TAX_BRACKETS).1
      let tax_method :=
        match looked with
        | some _ => ("Official table lookup (NAf " ++ fmt2 tax_base ++ ")")
        | none => ("Progressive brackets (fallback)")
      let tax_credits := BASISAFTREK / 12
      let final_tax := max (raw_tax - tax_credits) 0
      (final_tax,
        add_line_item s ("TAX") ("Wage Tax (Loonbelasting)") ("DEDUCTION") final_tax none
          (some tax_base)
          (some (tax_method ++ " | Gross tax: NAf " ++ fmt2 raw_tax ++ " - Basisaftrek: NAf "
            ++ fmt2 tax_credits)))

/-- Embeds `CuracaoCalculator.calculate_social_security`: AOV/AWW with the
korting credit recorded as a negative line item, BVZ with exemption and
gliding discount, AVBZ with the reduced low-income rate, and the
employer-only Cesantia entry at zero. -/
def calculate_social_security (employee : EmployeeInput) (gross : ℚ)
    (s : CalcState) : List (String × ℚ) × CalcState :=
  let premium_income_monthly := calculate_premium_income_monthly gross
  let premium_income_annual := premium_income_monthly * 12
  let step1 : List (String × ℚ) × CalcState :=
    if employee.aov_exempt then
      ([(("AOV_AWW" : String), (0 : ℚ))],
        { s with warnings := s.warnings ++ [("Employee is AOV/AWW exempt")] })
    else
      let aov_aww_base := min premium_income_monthly AOV_AWW_MAX_MONTHLY
      let aov_aww_employee_raw := aov_aww_base * AOV_AWW_EMPLOYEE_RATE
      let s1 := add_line_item s ("AOV_AWW") ("AOV/AWW (6.5%)") ("DEDUCTION")
        aov_aww_employee_raw (some AOV_AWW_EMPLOYEE_RATE) (some aov_aww_base)
        (some ("Pension & Widow/er Insurance"))
      let korting_monthly :=
        if premium_income_annual < KORTING_MAX_INCOME then
          calculate_aov_aww_korting_monthly premium_income_annual
        else 0
      let korting_note :=
        if premium_income_annual < KORTING_MAX_INCOME then ("Credit: income < NAf 27,633")
        else ("Income >= NAf 27,633")
      let s2 := add_line_item s1 ("KORTING") ("Premie Korting") ("DEDUCTION")
        (-korting_monthly) none none (some korting_note)
      ([(("AOV_AWW" : String), max (aov_aww_employee_raw - korting_monthly) 0)], s2)
  let s3 := step1.2
  let step2 : ℚ × CalcState :=
    if premium_income_annual < BVZ_VRIJSTELLING_ANNUAL then
      ((0 : ℚ),
        add_line_item s3 ("BVZ") ("BVZ (Health Insurance)") ("DEDUCTION") 0 none none
          (some ("Exempt: income below NAf 12000.00/year")))
    else
      let bvz_base := min premium_income_monthly BVZ_MAX_MONTHLY
      let bvz_raw := bvz_base * BVZ_EMPLOYEE_RATE
      let gliding_discount := calculate_bvz_gliding_discount premium_income_annual
      let discount_amount := bvz_raw * gliding_discount
      let bvz_final := bvz_raw - discount_amount
      let bvzNote :=
        if 0 < discount_amount then
          ("Health Insurance | Discount: -" ++ toString (gliding_discount * 100) ++ "%")
        else ("Health Insurance")
      (bvz_final,
        add_line_item s3 ("BVZ") ("BVZ (4.3%)") ("DEDUCTION") bvz_final
          (some BVZ_EMPLOYEE_RATE) (some bvz_base) (some bvzNote))
  let s4 := step2.2
  let avbz_base := min premium_income_monthly AVBZ_MAX_MONTHLY
  let avbz_rate :=
    if premium_income_annual < AVBZ_REDUCED_THRESHOLD then AVBZ_REDUCED_EMPLOYEE
    else AVBZ_EMPLOYEE_RATE
  let rate_note :=
    if premium_income_annual < AVBZ_REDUCED_THRESHOLD then ("0.5% (reduced rate)")
    else ("1.5%")
  let avbz_amount := avbz_base * avbz_rate
  let s5 := add_line_item s4 ("AVBZ") ("AVBZ (Special Medical)") ("DEDUCTION") avbz_amount
    (some avbz_rate) (some avbz_base) (some rate_note)
  (step1.1 ++ [(("BVZ" : String), step2.1), (("AVBZ" : String), avbz_amount),
    (("CESANTIA" : String), (0 : ℚ))], s5)

end Curacao

/-- The Curacao calculator as a stage record, parameterized by the parsed
monthly tax table. -/
def curacaoCalculator (table : Option (List (ℚ × ℚ × ℚ))) : Calculator :=
  { calculate_gross := Curacao.calculate_gross
    calculate_tax := Curacao.calculate_tax table
    calculate_social_security := Curacao.calculate_social_security }

namespace Aruba

/-- Aruba bracket table from the source. -/
def TAX_BRACKETS : List (ℚ × ℚ × ℚ) :=
  [((0 : ℚ), (3000 : ℚ), (0.12 : ℚ)),
   ((3000 : ℚ), (999999999 : ℚ), (0.45 : ℚ))]

/-- Embeds `ArubaCalculator.calculate_gross`. -/
def calculate_gross (employee : EmployeeInput) (s : CalcState) : ℚ × CalcState :=
  let s1 := add_line_item s ("BASIC") ("Basic Salary") ("EARNING") employee.gross_salary
    none none none
  employee.allowances.foldl
    (fun acc kv =>
      (acc.1 + kv.2,
        add_line_item acc.2 ("ALW_" ++ kv.1.toUpper) (display_name kv.1) ("EARNING")
          kv.2 none none none))
    (employee.gross_salary, s1)

/-- Embeds `ArubaCalculator.calculate_tax`: unconditional progressive tax on
gross (no exemption or override short-circuit in the source). -/
def calculate_tax (_employee : EmployeeInput) (gross : ℚ) (s : CalcState) : ℚ × CalcState :=
  let r := calculate_progressive_tax gross TAX_BRACKETS
  (r.1,
    add_line_item s ("TAX") ("Income Tax") ("DEDUCTION") r.1 none (some gross) (some r.2))

/-- Embeds `ArubaCalculator.calculate_social_security` (empty mapping). -/
def calculate_social_security (_employee : EmployeeInput) (_gross : ℚ)
    (s : CalcState) : List (String × ℚ) × CalcState :=
  ([], s)

end Aruba

/-- The Aruba calculator as a stage record. -/
def arubaCalculator : Calculator :=
  { calculate_gross := Aruba.calculate_gross
    calculate_tax := Aruba.calculate_tax
    calculate_social_security := Aruba.calculate_social_security }

namespace StMaarten

/-- St. Maarten bracket table from the source. -/
def TAX_BRACKETS : List (ℚ × ℚ × ℚ) :=
  [((0 : ℚ), (2500 : ℚ), (0.10 : ℚ)),
   ((2500 : ℚ), (5000 : ℚ), (0.25 : ℚ)),
   ((5000 : ℚ), (999999999 : ℚ), (0.45 : ℚ))]

def SOCIAL_SECURITY_RATE : ℚ := 0.065

def SOCIAL_SECURITY_MAX : ℚ := 4500

/-- Embeds `StMaartenCalculator.calculate_gross`. -/
def calculate_gross (employee : EmployeeInput) (s : CalcState) : ℚ × CalcState :=
  let s1 := add_line_item s ("BASIC") ("Basic Salary") ("EARNING") employee.gross_salary
    none none none
  employee.allowances.foldl
    (fun acc kv =>
      (acc.1 + kv.2,
        add_line_item acc.2 ("ALW_" ++ kv.1.toUpper) (display_name kv.1) ("EARNING")
          kv.2 none none none))
    (employee.gross_salary, s1)

/-- Embeds `StMaartenCalculator.calculate_tax`: exemption records a zero TAX
item without any note, otherwise progressive tax on gross. -/
def calculate_tax (employee : EmployeeInput) (gross : ℚ) (s : CalcState) : ℚ × CalcState :=
  if employee.tax_exempt then
    ((0 : ℚ),
      add_line_item s ("TAX") ("Income Tax (Exempt)") ("DEDUCTION") 0 none none none)
  else
    let r := calculate_progressive_tax gross TAX_BRACKETS
    (r.1,
      add_line_item s ("TAX") ("Income Tax") ("DEDUCTION") r.1 none (some gross) (some r.2))

/-- Embeds `StMaartenCalculator.calculate_social_security`. -/
def calculate_social_security (_employee : EmployeeInput) (gross : ℚ)
    (s : CalcState) : List (String × ℚ) × CalcState :=
  let ss_base := min gross SOCIAL_SECURITY_MAX
  let ss_amount := ss_base * SOCIAL_SECURITY_RATE
  ([(("SOCIAL_SEC" : String), ss_amount)],
    add_line_item s ("SOCIAL_SEC") ("Social Security") ("DEDUCTION") ss_amount
      (some SOCIAL_SECURITY_RATE) (some ss_base) none)

end StMaarten

/-- The St. Maarten calculator as a stage record. -/
def stMaartenCalculator : Calculator :=
  { calculate_gross := StMaarten.calculate_gross
    calculate_tax := StMaarten.calculate_tax
    calculate_social_security := StMaarten.calculate_social_security }

namespace Bonaire

/-- Bonaire bracket table from the source. -/
def TAX_BRACKETS : List (ℚ × ℚ × ℚ) :=
  [((0 : ℚ), (2800 : ℚ), (0.15 : ℚ)),
   ((2800 : ℚ), (999999999 : ℚ), (0.40 : ℚ))]

/-- Embeds `BonaireCalculator.calculate_gross`. -/
def calculate_gross (employee : EmployeeInput) (s : CalcState) : ℚ × CalcState :=
  let s1 := add_line_item s ("BASIC") ("Basic Salary") ("EARNING") employee.gross_salary
    none none none
  employee.allowances.foldl
    (fun acc kv =>
      (acc.1 + kv.2,
        add_line_item acc.2 ("ALW_" ++ kv.1.toUpper) (display_name kv.1) ("EARNING")
          kv.2 none none none))
    (employee.gross_salary, s1)

/-- Embeds `BonaireCalculator.calculate_tax`: unconditional progressive tax. -/
def calculate_tax (_employee : EmployeeInput) (gross : ℚ) (s : CalcState) : ℚ × CalcState :=
  let r := calculate_progressive_tax gross TAX_BRACKETS
  (r.1,
    add_line_item s ("TAX") ("Payroll Tax") ("DEDUCTION") r.1 none (some gross) (some r.2))

/-- Embeds `BonaireCalculator.calculate_social_security` (empty mapping). -/
def calculate_social_security (_employee : EmployeeInput) (_gross : ℚ)
    (s : CalcState) : List (String × ℚ) × CalcState :=
  ([], s)

end Bonaire

/-- The Bonaire calculator as a stage record. -/
def bonaireCalculator : Calculator :=
  { calculate_gross := Bonaire.calculate_gross
    calculate_tax := Bonaire.calculate_tax
    calculate_social_security := Bonaire.calculate_social_security }

/-! ## Generic lemmas about currency rounding and sums -/

lemma round_currency_abs_sub_le (x : ℚ) : |round_currency x - x| ≤ 1/200 := by
  unfold round_currency
  rcases le_or_lt 0 x with h | h
  · rw [if_pos h]
    have h1 : ((⌊x * 100 + 1/2⌋ : ℤ) : ℚ) ≤ x * 100 + 1/2 := Int.floor_le _
    have h2 : x * 100 + 1/2 - 1 < ((⌊x * 100 + 1/2⌋ : ℤ) : ℚ) := Int.sub_one_lt_floor _
    rw [abs_le]
    constructor <;> linarith
  · rw [if_neg (not_le.mpr h)]
    have h1 : ((⌊-x * 100 + 1/2⌋ : ℤ) : ℚ) ≤ -x * 100 + 1/2 := Int.floor_le _
    have h2 : -x * 100 + 1/2 - 1 < ((⌊-x * 100 + 1/2⌋ : ℤ) : ℚ) := Int.sub_one_lt_floor _
    rw [abs_le]
    constructor <;> linarith

lemma round_currency_nonneg (x : ℚ) (h : 0 ≤ x) : 0 ≤ round_currency x := by
  unfold round_currency
  rw [if_pos h]
  have h1 : (0 : ℤ) ≤ ⌊x * 100 + 1/2⌋ := Int.floor_nonneg.mpr (by linarith)
  have h2 : (0 : ℚ) ≤ ((⌊x * 100 + 1/2⌋ : ℤ) : ℚ) := by exact_mod_cast h1
  linarith

lemma round_currency_mono_of_nonneg (x y : ℚ) (h0 : 0 ≤ x) (hxy : x ≤ y) :
    round_currency x ≤ round_currency y := by
  unfold round_currency
  rw [if_pos h0, if_pos (le_trans h0 hxy)]
  have h1 : ⌊x * 100 + 1/2⌋ ≤ ⌊y * 100 + 1/2⌋ := Int.floor_le_floor (by linarith)
  have h2 : ((⌊x * 100 + 1/2⌋ : ℤ) : ℚ) ≤ ((⌊y * 100 + 1/2⌋ : ℤ) : ℚ) := by exact_mod_cast h1
  linarith

lemma round_currency_zero : round_currency 0 = 0 := by
  unfold round_currency
  norm_num

/-- Sum of a list of amounts (Python `sum`). -/
def sum_list (l : List ℚ) : ℚ := l.foldl (fun a x => a + x) 0

lemma sum_list_foldl (l : List ℚ) : ∀ a : ℚ, l.foldl (fun s y => s + y) a = a + sum_list l := by
  induction l with
  | nil => intro a; simp [sum_list]
  | cons x xs ih =>
    intro a
    simp only [List.foldl, sum_list]
    rw [ih (a + x), ih (0 + x)]
    ring

lemma sum_list_cons (x : ℚ) (l : List ℚ) : sum_list (x :: l) = x + sum_list l := by
  show (x :: l).foldl (fun s y => s + y) 0 = x + sum_list l
  simp only [List.foldl]
  rw [sum_list_foldl]
  ring

lemma sum_list_map_round_sub (l : List ℚ) :
    |sum_list (l.map round_currency) - sum_list l| ≤ (l.length : ℚ) / 200 := by
  induction l with
  | nil => simp [sum_list]
  | cons x xs ih =>
    rw [List.map_cons, sum_list_cons, sum_list_cons]
    have hx := round_currency_abs_sub_le x
    have habs : |round_currency x + sum_list (xs.map round_currency) - (x + sum_list xs)| ≤
        |round_currency x - x| + |sum_list (xs.map round_currency) - sum_list xs| := by
      have := abs_add (round_currency x - x) (sum_list (xs.map round_currency) - sum_list xs)
      calc |round_currency x + sum_list (xs.map round_currency) - (x + sum_list xs)|
          = |(round_currency x - x) + (sum_list (xs.map round_currency) - sum_list xs)| := by
            ring_nf
        _ ≤ _ := this
    have hlen : ((x :: xs).length : ℚ) = (xs.length : ℚ) + 1 := by
      simp [List.length]
    rw [hlen]
    calc |round_currency x + sum_list (xs.map round_currency) - (x + sum_list xs)|
        ≤ |round_currency x - x| + |sum_list (xs.map round_currency) - sum_list xs| := habs
      _ ≤ 1/200 + (xs.length : ℚ) / 200 := by
          exact add_le_add hx ih
      _ = ((xs.length : ℚ) + 1) / 200 := by ring

/-! ## Claim C1 -/

/-- Concrete input exercising fractional-cent deductions. -/
def empC1 : EmployeeInput :=
  ⟨"E1", "A", "aruba", 1000, none, 160, 0, [],
    [(("loan" : String), (100.005 : ℚ)), (("a" : String), (0.005 : ℚ)),
     (("b" : String), (0.005 : ℚ))], false, none, 0, false, false⟩

/-- C1 fails as stated: at this input the returned net salary is 779.99
while payable gross minus the recorded deductions total is 779.98, and the
recorded deductions total 220.02 differs from the 220.03 sum of the
recorded DEDUCTION line items. -/
theorem c1_counterexample :
    (calculate arubaCalculator empC1).net_salary ≠
      payable_gross empC1 - (calculate arubaCalculator empC1).deductions_total ∧
    (calculate arubaCalculator empC1).deductions_total ≠
      sum_list (((calculate arubaCalculator empC1).line_items.filter
        (fun i => i.category == "DEDUCTION")).map (fun i => i.amount)) := by
  constructor <;>
    norm_num [calculate, arubaCalculator, Aruba.calculate_gross, Aruba.calculate_tax,
      Aruba.calculate_social_security, calculate_other_deductions, calculate_progressive_tax,
      progressive_tax_loop, add_line_item, initState, empC1, sum_values, sum_list,
      round_currency, Aruba.TAX_BRACKETS, payable_gross, min_def, List.foldl, List.filter,
      List.map]

/-- C1 amended: net_salary is the currency rounding of payableGross minus
the unrounded deductions sum, and deductions_total is the currency rounding
of that same unrounded sum; the identity with the already-rounded recorded
values holds only up to this final rounding. -/
theorem c1_reconciliation_amended (c : Calculator) (employee : EmployeeInput) :
    (calculate c employee).net_salary =
      round_currency (payable_gross employee - deductions_raw c employee) ∧
    (calculate c employee).deductions_total =
      round_currency (deductions_raw c employee) := by
  constructor <;> rfl

/-! ## Claim C8 -/

/-- Concrete input with four sub-half-cent allowances. -/
def empC8 : EmployeeInput :=
  ⟨"E8", "A", "aruba", 1000, none, 160, 0,
    [(("a" : String), (0.004 : ℚ)), (("b" : String), (0.004 : ℚ)),
     (("c" : String), (0.004 : ℚ)), (("d" : String), (0.004 : ℚ))], [],
    false, none, 0, false, false⟩

/-- C8 fails as stated: at this input the recorded EARNING line items sum to
1000.00 while gross_total is 1000.02 (a re-rounding of the unrounded sum
1000.016), so the aggregated total is not a sum of already-rounded values
and differs from it by two cents, more than the claimed one-cent bound. -/
theorem c8_counterexample :
    sum_list (((calculate arubaCalculator empC8).line_items.filter
      (fun i => i.category == "EARNING")).map (fun i => i.amount)) = 1000 ∧
    (calculate arubaCalculator empC8).gross_total = (1000.02 : ℚ) ∧
    ¬ (|(calculate arubaCalculator empC8).gross_total -
        sum_list (((calculate arubaCalculator empC8).line_items.filter
          (fun i => i.category == "EARNING")).map (fun i => i.amount))| ≤ 1/100) := by
  refine ⟨?_, ?_, ?_⟩ <;>
    norm_num [calculate, arubaCalculator, Aruba.calculate_gross, Aruba.calculate_tax,
      Aruba.calculate_social_security, calculate_other_deductions, calculate_progressive_tax,
      progressive_tax_loop, add_line_item, initState, empC8, sum_values, sum_list,
      round_currency, Aruba.TAX_BRACKETS, min_def, List.foldl, List.filter, List.map,
      abs_of_nonneg]

/-- C8 amended: each line-item amount is rounded half-up to two decimals
exactly once when recorded; the aggregated totals are single roundings of
sums of unrounded stage values (not sums of the rounded line items); and
the gap between a sum of already-rounded amounts and the rounding of the
unrounded sum is bounded by half a cent per amount plus half a cent. -/
theorem c8_rounding_amended :
    (∀ (s : CalcState) (code nm cat : String) (amount : ℚ) (rate b : Option ℚ)
        (n : Option String),
      (add_line_item s code nm cat amount rate b n).line_items =
        s.line_items ++ [⟨code, nm, cat, round_currency amount, rate, b, n⟩]) ∧
    (∀ (c : Calculator) (employee : EmployeeInput),
      (calculate c employee).gross_total = round_currency (gross_raw c employee) ∧
      (calculate c employee).deductions_total = round_currency (deductions_raw c employee) ∧
      (calculate c employee).net_salary =
        round_currency (payable_gross employee - deductions_raw c employee)) ∧
    (∀ l : List ℚ,
      |sum_list (l.map round_currency) - round_currency (sum_list l)| ≤
        ((l.length : ℚ) + 1) / 200) := by
  refine ⟨fun s code nm cat amount rate b n => rfl, fun c e => ⟨rfl, rfl, rfl⟩, fun l => ?_⟩
  have h1 := sum_list_map_round_sub l
  have h2 := round_currency_abs_sub_le (sum_list l)
  have key : sum_list (l.map round_currency) - round_currency (sum_list l)
      = (sum_list (l.map round_currency) - sum_list l) +
        (sum_list l - round_currency (sum_list l)) := by ring
  rw [key]
  have h3 := abs_add (sum_list (l.map round_currency) - sum_list l)
    (sum_list l - round_currency (sum_list l))
  have h4 : |sum_list l - round_currency (sum_list l)| =
      |round_currency (sum_list l) - sum_list l| := abs_sub_comm _ _
  rw [h4] at h3
  refine le_trans h3 ?_
  linarith

/-! ## Curacao statutory-chain lemmas -/

lemma korting_zero_of_ge (A : ℚ) (h : Curacao.KORTING_MAX_INCOME ≤ A) :
    Curacao.calculate_aov_aww_korting_monthly A = 0 := by
  unfold Curacao.calculate_aov_aww_korting_monthly
  rw [if_pos h]

lemma korting_if_eq (A : ℚ) :
    (if A < Curacao.KORTING_MAX_INCOME then Curacao.calculate_aov_aww_korting_monthly A else 0) =
      Curacao.calculate_aov_aww_korting_monthly A := by
  rcases lt_or_le A Curacao.KORTING_MAX_INCOME with h | h
  · rw [if_pos h]
  · rw [if_neg (not_lt.mpr h), korting_zero_of_ge A h]

lemma korting_nonneg (A : ℚ) : 0 ≤ Curacao.calculate_aov_aww_korting_monthly A := by
  unfold Curacao.calculate_aov_aww_korting_monthly
  rcases le_or_lt Curacao.KORTING_MAX_INCOME A with h | h
  · rw [if_pos h]
  · rw [if_neg (not_le.mpr h)]
    have h1 : (0 : ℚ) ≤ max ((Curacao.KORTING_BASE - Curacao.KORTING_PERCENTAGE * A) *
        Curacao.KORTING_RATE) 0 := le_max_right _ _
    linarith

/-! ## Claim C2 -/

/-- The premium income of the specification chain. -/
def spec_premium_income (gross : ℚ) : ℚ := max (gross - Curacao.VASTE_AFTREK / 12) 0

/-- The final primary AOV/AWW premium of the specification chain: capped
base times the employee rate, reduced by the korting credit, floored at 0. -/
def spec_final_primary_premium (gross : ℚ) : ℚ :=
  max (min (spec_premium_income gross) Curacao.AOV_AWW_MAX_MONTHLY *
      Curacao.AOV_AWW_EMPLOYEE_RATE -
    Curacao.calculate_aov_aww_korting_monthly (spec_premium_income gross * 12)) 0

/-- The tax base of the specification chain. -/
def spec_tax_base (gross : ℚ) : ℚ :=
  spec_premium_income gross - spec_final_primary_premium gross

/-- T of the specification chain: table lookup on the tax base, or the
progressive-bracket evaluation when the table is unavailable. -/
def spec_T (table : Option (List (ℚ × ℚ × ℚ))) (gross : ℚ) : ℚ :=
  match Curacao.lookup_tax_from_table table (spec_tax_base gross) with
  | some t => t
  | none => (calculate_progressive_tax (spec_tax_base gross) Curacao.TAX_BRACKETS).1

/-- C2: for a non-exempt Curacao employee without an override percentage the
returned tax is max(T(taxBase) - BASISAFTREK/12, 0) over the claimed chain,
and the recorded TAX line item carries the currency rounding of that value. -/
theorem c2_curacao_tax_formula (table : Option (List (ℚ × ℚ × ℚ)))
    (employee : EmployeeInput) (gross : ℚ) (s : CalcState)
    (hex : employee.tax_exempt = false) (hp : employee.tax_percentage = none) :
    (Curacao.calculate_tax table employee gross s).1 =
      max (spec_T table gross - Curacao.BASISAFTREK / 12) 0 ∧
    ((Curacao.calculate_tax table employee gross s).2.line_items.map
        (fun i => (i.code, i.amount))) =
      s.line_items.map (fun i => (i.code, i.amount)) ++
        [(("TAX" : String),
          round_currency (max (spec_T table gross - Curacao.BASISAFTREK / 12) 0))] := by
  constructor <;>
    simp only [Curacao.calculate_tax, hex, hp, Bool.false_eq_true, if_false,
      korting_if_eq, add_line_item, List.map_append, List.map_cons, List.map_nil,
      spec_T, spec_tax_base, spec_final_primary_premium, spec_premium_income,
      Curacao.calculate_premium_income_monthly]

/-- Closed instance of C2 at a concrete input. -/
def empC2 : EmployeeInput :=
  ⟨"E2", "C", "curacao", 4000, none, 160, 0, [], [], false, none, 0, false, false⟩

theorem c2_witness :
    (Curacao.calculate_tax none empC2 4000 initState).1 =
      max (spec_T none 4000 - Curacao.BASISAFTREK / 12) 0 ∧
    ((Curacao.calculate_tax none empC2 4000 initState).2.line_items.map
        (fun i => (i.code, i.amount))) =
      initState.line_items.map (fun i => (i.code, i.amount)) ++
        [(("TAX" : String),
          round_currency (max (spec_T none 4000 - Curacao.BASISAFTREK / 12) 0))] :=
  c2_curacao_tax_formula none empC2 4000 initState rfl rfl

/-! ## Claim C3 -/

/-- C3: the korting credit equals the claimed closed form and is never
negative; the final primary AOV/AWW contribution is the raw capped premium
minus the credit, floored at zero; and the final tax of the statutory path
is never negative. -/
theorem c3_korting_credit_floor :
    (∀ A : ℚ,
      Curacao.calculate_aov_aww_korting_monthly A =
        (if Curacao.KORTING_MAX_INCOME ≤ A then 0
         else max (Curacao.KORTING_BASE - Curacao.KORTING_PERCENTAGE * A) 0 *
           Curacao.KORTING_RATE / 12) ∧
      0 ≤ Curacao.calculate_aov_aww_korting_monthly A) ∧
    (∀ (employee : EmployeeInput) (gross : ℚ) (s : CalcState),
      employee.aov_exempt = false →
      (Curacao.calculate_social_security employee gross s).1.head? =
        some (("AOV_AWW" : String),
          max (min (Curacao.calculate_premium_income_monthly gross)
              Curacao.AOV_AWW_MAX_MONTHLY * Curacao.AOV_AWW_EMPLOYEE_RATE -
            Curacao.calculate_aov_aww_korting_monthly
              (Curacao.calculate_premium_income_monthly gross * 12)) 0)) ∧
    (∀ (table : Option (List (ℚ × ℚ × ℚ))) (employee : EmployeeInput) (gross : ℚ)
        (s : CalcState),
      employee.tax_percentage = none →
      0 ≤ (Curacao.calculate_tax table employee gross s).1) := by
  refine ⟨fun A => ⟨?_, korting_nonneg A⟩, fun employee gross s h => ?_, ?_⟩
  · unfold Curacao.calculate_aov_aww_korting_monthly
    rcases le_or_lt Curacao.KORTING_MAX_INCOME A with h | h
    · rw [if_pos h, if_pos h]
    · rw [if_neg (not_le.mpr h), if_neg (not_le.mpr h),
        max_mul_of_nonneg _ _ (show (0 : ℚ) ≤ Curacao.KORTING_RATE by norm_num [Curacao.KORTING_RATE]),
        zero_mul]
  · simp only [Curacao.calculate_social_security, h, Bool.false_eq_true, if_false,
      korting_if_eq, List.cons_append, List.head?]
  · intro table employee gross s hp
    rcases hbool : employee.tax_exempt with _ | _
    · simp only [Curacao.calculate_tax, hbool, hp, Bool.false_eq_true, if_false]
      exact le_max_right _ _
    · simp only [Curacao.calculate_tax, hbool, if_true]
      exact le_refl 0

/-- Closed instance of C3 at concrete inputs. -/
theorem c3_witness :
    0 ≤ Curacao.calculate_aov_aww_korting_monthly 10000 ∧
    (Curacao.calculate_social_security empC2 4000 initState).1.head? =
      some (("AOV_AWW" : String),
        max (min (Curacao.calculate_premium_income_monthly 4000)
            Curacao.AOV_AWW_MAX_MONTHLY * Curacao.AOV_AWW_EMPLOYEE_RATE -
          Curacao.calculate_aov_aww_korting_monthly
            (Curacao.calculate_premium_income_monthly 4000 * 12)) 0) ∧
    0 ≤ (Curacao.calculate_tax none empC2 4000 initState).1 :=
  ⟨(c3_korting_credit_floor.1 10000).2,
   c3_korting_credit_floor.2.1 empC2 4000 initState rfl,
   c3_korting_credit_floor.2.2 none empC2 4000 initState rfl⟩

/-! ## Claim C5 -/

/-- One bracket contribution of the specification: rate times the capped
slice, for brackets whose lower bound is exceeded by the base. -/
def spec_bracket_term (base : ℚ) (b : ℚ × ℚ × ℚ) : ℚ :=
  if b.1 < base then b.2.2 * (min base b.2.1 - b.1) else 0

/-- The specification sum over all brackets with base above the lower bound. -/
def spec_progressive_sum (base : ℚ) (brackets : List (ℚ × ℚ × ℚ)) : ℚ :=
  (brackets.map (spec_bracket_term base)).sum

/-- The derivation fragments of the applied brackets, per the specification. -/
def spec_applied_fragments (base : ℚ) (brackets : List (ℚ × ℚ × ℚ)) : List String :=
  (brackets.filter (fun b => decide (b.1 < base))).map
    (fun b => percentFragment b.2.2 (min base b.2.1 - b.1))

lemma spec_progressive_sum_eq_zero (base : ℚ) (brackets : List (ℚ × ℚ × ℚ))
    (h : ∀ b ∈ brackets, base ≤ b.1) : spec_progressive_sum base brackets = 0 := by
  unfold spec_progressive_sum
  apply List.sum_eq_zero
  intro x hx
  rcases List.mem_map.mp hx with ⟨b, hb, rfl⟩
  unfold spec_bracket_term
  rw [if_neg (not_lt.mpr (h b hb))]

lemma spec_applied_fragments_eq_nil (base : ℚ) (brackets : List (ℚ × ℚ × ℚ))
    (h : ∀ b ∈ brackets, base ≤ b.1) : spec_applied_fragments base brackets = [] := by
  unfold spec_applied_fragments
  rw [List.filter_eq_nil_iff.mpr]
  · rfl
  · intro b hb
    simp only [decide_eq_true_eq, not_lt]
    exact h b hb

lemma progressive_loop_spec (base : ℚ) :
    ∀ brackets : List (ℚ × ℚ × ℚ),
      List.Pairwise (fun a b => a.1 ≤ b.1) brackets →
      (progressive_tax_loop base brackets).1 = spec_progressive_sum base brackets ∧
      (progressive_tax_loop base brackets).2 = spec_applied_fragments base brackets := by
  intro brackets
  induction brackets with
  | nil =>
    intro _
    constructor <;> rfl
  | cons b rest ih =>
    intro hp
    rcases List.pairwise_cons.mp hp with ⟨hhead, htail⟩
    obtain ⟨l, u, r⟩ := b
    rcases le_or_lt base l with hbl | hbl
    · have hall : ∀ x ∈ (l, u, r) :: rest, base ≤ x.1 := by
        intro x hx
        rcases List.mem_cons.mp hx with rfl | hx
        · exact hbl
        · exact le_trans hbl (hhead x hx)
      constructor
      · rw [spec_progressive_sum_eq_zero base _ hall]
        simp [progressive_tax_loop, if_pos hbl]
      · rw [spec_applied_fragments_eq_nil base _ hall]
        simp [progressive_tax_loop, if_pos hbl]
    · have hloop : progressive_tax_loop base ((l, u, r) :: rest) =
          ((min base u - l) * r + (progressive_tax_loop base rest).1,
            percentFragment r (min base u - l) :: (progressive_tax_loop base rest).2) := by
        simp [progressive_tax_loop, if_neg (not_le.mpr hbl)]
      rcases ih htail with ⟨ih1, ih2⟩
      constructor
      · rw [hloop]
        show (min base u - l) * r + (progressive_tax_loop base rest).1 =
          spec_progressive_sum base ((l, u, r) :: rest)
        unfold spec_progressive_sum
        rw [List.map_cons, List.sum_cons]
        unfold spec_progressive_sum at ih1
        rw [ih1]
        unfold spec_bracket_term
        rw [if_pos hbl]
        ring
      · rw [hloop]
        show percentFragment r (min base u - l) :: (progressive_tax_loop base rest).2 =
          spec_applied_fragments base ((l, u, r) :: rest)
        unfold spec_applied_fragments
        rw [List.filter_cons_of_pos (by simpa using hbl), List.map_cons]
        unfold spec_applied_fragments at ih2
        rw [ih2]

/-- C5: for a non-negative base and an ascending bracket table, the
evaluator returns the currency rounding of the specification sum together
with the joined fragment note, or the note No tax when no bracket applied. -/
theorem c5_progressive_tax (base : ℚ) (brackets : List (ℚ × ℚ × ℚ))
    (_hbase : 0 ≤ base)
    (hsorted : List.Pairwise (fun a b => a.1 ≤ b.1) brackets) :
    calculate_progressive_tax base brackets =
      (round_currency (spec_progressive_sum base brackets),
       if (spec_applied_fragments base brackets).isEmpty then ("No tax")
       else String.intercalate (" + ") (spec_applied_fragments base brackets)) := by
  have h := progressive_loop_spec base brackets hsorted
  simp only [calculate_progressive_tax]
  rw [h.1, h.2]

/-- Closed instance of C5 on the Aruba bracket table at base 3500. -/
theorem c5_witness :
    calculate_progressive_tax 3500 Aruba.TAX_BRACKETS =
      (round_currency (spec_progressive_sum 3500 Aruba.TAX_BRACKETS),
       if (spec_applied_fragments 3500 Aruba.TAX_BRACKETS).isEmpty then ("No tax")
       else String.intercalate (" + ") (spec_applied_fragments 3500 Aruba.TAX_BRACKETS)) := by
  have hs : List.Pairwise (fun a b => a.1 ≤ b.1) Aruba.TAX_BRACKETS := by
    unfold Aruba.TAX_BRACKETS
    refine List.Pairwise.cons ?_ (List.Pairwise.cons ?_ List.Pairwise.nil)
    · intro b hb
      rcases List.mem_cons.mp hb with rfl | hb
      · norm_num
      · simp at hb
    · intro b hb
      simp at hb
  exact c5_progressive_tax 3500 Aruba.TAX_BRACKETS (by norm_num) hs

/-! ## Claim C9 -/

lemma progressive_loop_nonneg (base : ℚ) :
    ∀ brackets : List (ℚ × ℚ × ℚ),
      (∀ b ∈ brackets, 0 ≤ b.2.2 ∧ 0 ≤ b.1 ∧ b.1 ≤ b.2.1) →
      0 ≤ (progressive_tax_loop base brackets).1 := by
  intro brackets
  induction brackets with
  | nil => intro _; exact le_refl 0
  | cons b rest ih =>
    intro hb
    obtain ⟨l, u, r⟩ := b
    rcases hb _ (List.mem_cons_self _ _) with ⟨hr, hl, hlu⟩
    rcases le_or_lt base l with hbl | hbl
    · simp [progressive_tax_loop, if_pos hbl]
    · have hrest := ih (fun x hx => hb x (List.mem_cons_of_mem _ hx))
      have hmin : l ≤ min base u := le_min (le_of_lt hbl) hlu
      have hterm : 0 ≤ (min base u - l) * r := mul_nonneg (by linarith) hr
      simp only [progressive_tax_loop, if_neg (not_le.mpr hbl)]
      exact add_nonneg hterm hrest

lemma progressive_loop_mono (x y : ℚ) (hxy : x ≤ y) :
    ∀ brackets : List (ℚ × ℚ × ℚ),
      (∀ b ∈ brackets, 0 ≤ b.2.2 ∧ 0 ≤ b.1 ∧ b.1 ≤ b.2.1) →
      (progressive_tax_loop x brackets).1 ≤ (progressive_tax_loop y brackets).1 := by
  intro brackets
  induction brackets with
  | nil => intro _; exact le_refl 0
  | cons b rest ih =>
    intro hb
    obtain ⟨l, u, r⟩ := b
    rcases hb _ (List.mem_cons_self _ _) with ⟨hr, hl, hlu⟩
    have hrest := fun x hx => hb x (List.mem_cons_of_mem _ hx)
    rcases le_or_lt x l with hxl | hxl
    · simp only [progressive_tax_loop, if_pos hxl]
      exact progressive_loop_nonneg y _ hb
    · have hyl : l < y := lt_of_lt_of_le hxl hxy
      simp only [progressive_tax_loop, if_neg (not_le.mpr hxl), if_neg (not_le.mpr hyl)]
      have hterm : (min x u - l) * r ≤ (min y u - l) * r :=
        mul_le_mul_of_nonneg_right
          (sub_le_sub_right (min_le_min hxy (le_refl u)) l) hr
      exact add_le_add hterm (ih hrest)

lemma progressive_loop_zero (brackets : List (ℚ × ℚ × ℚ))
    (hb : ∀ b ∈ brackets, 0 ≤ b.2.2 ∧ 0 ≤ b.1 ∧ b.1 ≤ b.2.1) :
    (progressive_tax_loop 0 brackets).1 = 0 := by
  cases brackets with
  | nil => rfl
  | cons b rest =>
    obtain ⟨l, u, r⟩ := b
    rcases hb _ (List.mem_cons_self _ _) with ⟨_, hl, _⟩
    simp [progressive_tax_loop, if_pos hl]

/-- C9: for any bracket table with non-negative rates, non-negative lower
bounds and lower at most upper (all four jurisdiction tables qualify), the
progressive tax is a non-decreasing function of the base, and tax at 0 is 0. -/
theorem c9_bracket_monotonicity (brackets : List (ℚ × ℚ × ℚ))
    (hb : ∀ b ∈ brackets, 0 ≤ b.2.2 ∧ 0 ≤ b.1 ∧ b.1 ≤ b.2.1) :
    (∀ x y : ℚ, x ≤ y →
      (calculate_progressive_tax x brackets).1 ≤ (calculate_progressive_tax y brackets).1) ∧
    (calculate_progressive_tax 0 brackets).1 = 0 := by
  constructor
  · intro x y hxy
    unfold calculate_progressive_tax
    exact round_currency_mono_of_nonneg _ _ (progressive_loop_nonneg x brackets hb)
      (progressive_loop_mono x y hxy brackets hb)
  · simp only [calculate_progressive_tax]
    rw [progressive_loop_zero brackets hb]
    exact round_currency_zero

/-- Closed instance of C9 on the St. Maarten bracket table. -/
theorem c9_witness :
    (calculate_progressive_tax 1000 StMaarten.TAX_BRACKETS).1 ≤
      (calculate_progressive_tax 2000 StMaarten.TAX_BRACKETS).1 ∧
    (calculate_progressive_tax 0 StMaarten.TAX_BRACKETS).1 = 0 := by
  have hb : ∀ b ∈ StMaarten.TAX_BRACKETS, 0 ≤ b.2.2 ∧ 0 ≤ b.1 ∧ b.1 ≤ b.2.1 := by
    intro b hbm
    simp only [StMaarten.TAX_BRACKETS, List.mem_cons, List.not_mem_nil, or_false] at hbm
    rcases hbm with rfl | rfl | rfl <;> norm_num
  exact ⟨(c9_bracket_monotonicity StMaarten.TAX_BRACKETS hb).1 1000 2000 (by norm_num),
    (c9_bracket_monotonicity StMaarten.TAX_BRACKETS hb).2⟩

/-! ## Claim C4 -/

/-- Python dictionary lookup on a contribution mapping (first matching key). -/
def lookup_contrib (l : List (String × ℚ)) (k : String) : Option ℚ :=
  (l.find? (fun kv => kv.1 == k)).map (fun kv => kv.2)

lemma gliding_discount_zero_of_ge (A : ℚ) (h : Curacao.BVZ_GLIDING_END ≤ A) :
    Curacao.calculate_bvz_gliding_discount A = 0 := by
  unfold Curacao.calculate_bvz_gliding_discount
  have h' : ¬ A < Curacao.BVZ_GLIDING_START := by
    simp only [Curacao.BVZ_GLIDING_START]
    simp only [Curacao.BVZ_GLIDING_END] at h
    linarith
  rw [if_neg h', if_pos h]

/-- C4: the BVZ contribution has three mutually exclusive bands of
annualized premium income: full exemption recorded with the exemption
reason below 12000; capped base at 4.3% minus the gliding discount between
12000 and 18000, where the discount takes the five strictly decreasing
sub-band values; and capped base at 4.3% with no discount at or above 18000. -/
theorem c4_bvz_bands :
    (∀ (employee : EmployeeInput) (gross : ℚ) (s : CalcState),
      Curacao.calculate_premium_income_monthly gross * 12 < 12000 →
      lookup_contrib (Curacao.calculate_social_security employee gross s).1 ("BVZ") = some 0 ∧
      (((Curacao.calculate_social_security employee gross s).2.line_items.drop
          s.line_items.length).filter (fun i => i.code == "BVZ")) =
        [⟨"BVZ", "BVZ (Health Insurance)", "DEDUCTION", 0,
          none, none, some ("Exempt: income below NAf 12000.00/year")⟩]) ∧
    (∀ (employee : EmployeeInput) (gross : ℚ) (s : CalcState),
      12000 ≤ Curacao.calculate_premium_income_monthly gross * 12 →
      Curacao.calculate_premium_income_monthly gross * 12 < 18000 →
      lookup_contrib (Curacao.calculate_social_security employee gross s).1 ("BVZ") =
        some (min (Curacao.calculate_premium_income_monthly gross) Curacao.BVZ_MAX_MONTHLY *
            Curacao.BVZ_EMPLOYEE_RATE -
          min (Curacao.calculate_premium_income_monthly gross) Curacao.BVZ_MAX_MONTHLY *
            Curacao.BVZ_EMPLOYEE_RATE *
            Curacao.calculate_bvz_gliding_discount
              (Curacao.calculate_premium_income_monthly gross * 12))) ∧
    (∀ (employee : EmployeeInput) (gross : ℚ) (s : CalcState),
      18000 ≤ Curacao.calculate_premium_income_monthly gross * 12 →
      lookup_contrib (Curacao.calculate_social_security employee gross s).1 ("BVZ") =
        some (min (Curacao.calculate_premium_income_monthly gross) Curacao.BVZ_MAX_MONTHLY *
          Curacao.BVZ_EMPLOYEE_RATE)) ∧
    (∀ A : ℚ, 12000 ≤ A → A < 13200 → Curacao.calculate_bvz_gliding_discount A = 0.038) ∧
    (∀ A : ℚ, 13200 ≤ A → A < 14400 → Curacao.calculate_bvz_gliding_discount A = 0.028) ∧
    (∀ A : ℚ, 14400 ≤ A → A < 15600 → Curacao.calculate_bvz_gliding_discount A = 0.019) ∧
    (∀ A : ℚ, 15600 ≤ A → A < 16800 → Curacao.calculate_bvz_gliding_discount A = 0.011) ∧
    (∀ A : ℚ, 16800 ≤ A → A < 18000 → Curacao.calculate_bvz_gliding_discount A = 0.006) ∧
    ((0.028 : ℚ) < 0.038 ∧ (0.019 : ℚ) < 0.028 ∧ (0.011 : ℚ) < 0.019 ∧
      (0.006 : ℚ) < 0.011 ∧ (0 : ℚ) < 0.006) := by
  refine ⟨?_, ?_, ?_, ?_, ?_, ?_, ?_, ?_, by norm_num⟩
  · intro employee gross s h
    have h12 : Curacao.calculate_premium_income_monthly gross * 12 <
        Curacao.BVZ_VRIJSTELLING_ANNUAL := h
    cases haov : employee.aov_exempt <;>
      simp [Curacao.calculate_social_security, haov, h12, lookup_contrib, add_line_item,
        round_currency_zero, List.filter, List.drop_left]
  · intro employee gross s h1 h2
    have hneg : ¬ (Curacao.calculate_premium_income_monthly gross * 12 <
        Curacao.BVZ_VRIJSTELLING_ANNUAL) := by
      simp only [Curacao.BVZ_VRIJSTELLING_ANNUAL]
      linarith
    cases haov : employee.aov_exempt <;>
      simp [Curacao.calculate_social_security, haov, hneg, lookup_contrib, add_line_item]
  · intro employee gross s h
    have hneg : ¬ (Curacao.calculate_premium_income_monthly gross * 12 <
        Curacao.BVZ_VRIJSTELLING_ANNUAL) := by
      simp only [Curacao.BVZ_VRIJSTELLING_ANNUAL]
      linarith
    have hd : Curacao.calculate_bvz_gliding_discount
        (Curacao.calculate_premium_income_monthly gross * 12) = 0 :=
      gliding_discount_zero_of_ge _ (by simp only [Curacao.BVZ_GLIDING_END]; linarith)
    cases haov : employee.aov_exempt <;>
      simp [Curacao.calculate_social_security, haov, hneg, hd, lookup_contrib, add_line_item]
  · intro A hlo hhi
    unfold Curacao.calculate_bvz_gliding_discount
    simp only [Curacao.BVZ_GLIDING_SCALE, Curacao.BVZ_GLIDING_START, Curacao.BVZ_GLIDING_END,
      Curacao.gliding_scan]
    rw [if_neg (not_lt.mpr (by linarith)), if_neg (not_le.mpr (by linarith)),
      if_pos ⟨hlo, hhi⟩]
  · intro A hlo hhi
    unfold Curacao.calculate_bvz_gliding_discount
    simp only [Curacao.BVZ_GLIDING_SCALE, Curacao.BVZ_GLIDING_START, Curacao.BVZ_GLIDING_END,
      Curacao.gliding_scan]
    rw [if_neg (not_lt.mpr (by linarith)), if_neg (not_le.mpr (by linarith)),
      if_neg (by rintro ⟨-, h⟩; linarith), if_pos ⟨hlo, hhi⟩]
  · intro A hlo hhi
    unfold Curacao.calculate_bvz_gliding_discount
    simp only [Curacao.BVZ_GLIDING_SCALE, Curacao.BVZ_GLIDING_START, Curacao.BVZ_GLIDING_END,
      Curacao.gliding_scan]
    rw [if_neg (not_lt.mpr (by linarith)), if_neg (not_le.mpr (by linarith)),
      if_neg (by rintro ⟨-, h⟩; linarith), if_neg (by rintro ⟨-, h⟩; linarith),
      if_pos ⟨hlo, hhi⟩]
  · intro A hlo hhi
    unfold Curacao.calculate_bvz_gliding_discount
    simp only [Curacao.BVZ_GLIDING_SCALE, Curacao.BVZ_GLIDING_START, Curacao.BVZ_GLIDING_END,
      Curacao.gliding_scan]
    rw [if_neg (not_lt.mpr (by linarith)), if_neg (not_le.mpr (by linarith)),
      if_neg (by rintro ⟨-, h⟩; linarith), if_neg (by rintro ⟨-, h⟩; linarith),
      if_neg (by rintro ⟨-, h⟩; linarith), if_pos ⟨hlo, hhi⟩]
  · intro A hlo hhi
    unfold Curacao.calculate_bvz_gliding_discount
    simp only [Curacao.BVZ_GLIDING_SCALE, Curacao.BVZ_GLIDING_START, Curacao.BVZ_GLIDING_END,
      Curacao.gliding_scan]
    rw [if_neg (not_lt.mpr (by linarith)), if_neg (not_le.mpr hhi),
      if_neg (by rintro ⟨-, h⟩; linarith), if_neg (by rintro ⟨-, h⟩; linarith),
      if_neg (by rintro ⟨-, h⟩; linarith), if_neg (by rintro ⟨-, h⟩; linarith),
      if_pos ⟨hlo, hhi⟩]

/-- Closed instance of C4 at concrete grosses in each band. -/
theorem c4_witness :
    lookup_contrib (Curacao.calculate_social_security empC2 500 initState).1 ("BVZ") =
      some 0 ∧
    lookup_contrib (Curacao.calculate_social_security empC2 1100 initState).1 ("BVZ") =
      some (min (Curacao.calculate_premium_income_monthly 1100) Curacao.BVZ_MAX_MONTHLY *
          Curacao.BVZ_EMPLOYEE_RATE -
        min (Curacao.calculate_premium_income_monthly 1100) Curacao.BVZ_MAX_MONTHLY *
          Curacao.BVZ_EMPLOYEE_RATE *
          Curacao.calculate_bvz_gliding_discount
            (Curacao.calculate_premium_income_monthly 1100 * 12)) ∧
    lookup_contrib (Curacao.calculate_social_security empC2 2000 initState).1 ("BVZ") =
      some (min (Curacao.calculate_premium_income_monthly 2000) Curacao.BVZ_MAX_MONTHLY *
        Curacao.BVZ_EMPLOYEE_RATE) ∧
    Curacao.calculate_bvz_gliding_discount 12700 = 0.038 :=
  ⟨(c4_bvz_bands.1 empC2 500 initState
      (by norm_num [Curacao.calculate_premium_income_monthly, Curacao.VASTE_AFTREK, max_def])).1,
   c4_bvz_bands.2.1 empC2 1100 initState
     (by norm_num [Curacao.calculate_premium_income_monthly, Curacao.VASTE_AFTREK, max_def])
     (by norm_num [Curacao.calculate_premium_income_monthly, Curacao.VASTE_AFTREK, max_def]),
   c4_bvz_bands.2.2.1 empC2 2000 initState
     (by norm_num [Curacao.calculate_premium_income_monthly, Curacao.VASTE_AFTREK, max_def]),
   c4_bvz_bands.2.2.2.1 12700 (by norm_num) (by norm_num)⟩

/-! ## Claim C6 -/

/-- Number of recorded line items carrying a given code. -/
def count_code (l : List PayrollLineItem) (c : String) : ℕ :=
  (l.filter (fun i => i.code == c)).length

/-- Concrete tax-exempt input for the Aruba calculator. -/
def empC6 : EmployeeInput :=
  ⟨"E6", "A", "aruba", 3000, none, 160, 0, [], [], true, none, 0, false, false⟩

/-- C6 fails as stated for every jurisdiction calculator: the Aruba
calculator has no exemption short-circuit, so this tax-exempt employee gets
a TAX line item of 360.00 instead of 0.00. -/
theorem c6_counterexample :
    empC6.tax_exempt = true ∧
    (((calculate arubaCalculator empC6).line_items.filter
        (fun i => i.code == "TAX")).map (fun i => i.amount)) = [360] ∧
    ¬ ((360 : ℚ) = 0) := by
  refine ⟨rfl, ?_, by norm_num⟩
  norm_num [calculate, arubaCalculator, Aruba.calculate_gross, Aruba.calculate_tax,
    Aruba.calculate_social_security, calculate_other_deductions, calculate_progressive_tax,
    progressive_tax_loop, add_line_item, initState, empC6, round_currency,
    Aruba.TAX_BRACKETS, min_def, List.foldl, List.filter, List.map]

/-- C6 amended: the three short-circuit paths hold for the Curacao
calculator (exempt employees always get a zero TAX item carrying the
exemption note, an override percentage yields gross times percentage/100
with the custom-rate note, otherwise the statutory chain runs), and every
call records exactly one TAX line item; the Aruba and Bonaire calculators
apply the standard formula unconditionally and St. Maarten checks only the
exemption, recording the zero item without a note. -/
theorem c6_curacao_three_paths (table : Option (List (ℚ × ℚ × ℚ)))
    (employee : EmployeeInput) (gross : ℚ) (s : CalcState) :
    (employee.tax_exempt = true →
      (Curacao.calculate_tax table employee gross s).1 = 0 ∧
      (Curacao.calculate_tax table employee gross s).2.line_items =
        s.line_items ++ [⟨"TAX", "Wage Tax (Exempt)", "DEDUCTION", 0, none, none,
          some ("Tax exempt status")⟩]) ∧
    (∀ p : ℚ, employee.tax_exempt = false → employee.tax_percentage = some p →
      (Curacao.calculate_tax table employee gross s).1 = gross * (p / 100) ∧
      (Curacao.calculate_tax table employee gross s).2.line_items =
        s.line_items ++ [⟨"TAX", "Wage Tax", "DEDUCTION", round_currency (gross * (p / 100)),
          some (p / 100), some gross, some ("Custom rate: " ++ toString p ++ "%")⟩]) ∧
    count_code (Curacao.calculate_tax table employee gross s).2.line_items ("TAX") =
      count_code s.line_items ("TAX") + 1 := by
  refine ⟨fun hex => ?_, fun p hex hp => ?_, ?_⟩
  · simp [Curacao.calculate_tax, hex, add_line_item, round_currency_zero]
  · simp [Curacao.calculate_tax, hex, hp, add_line_item]
  · rcases hex : employee.tax_exempt with _ | _
    · rcases hp : employee.tax_percentage with _ | p
      · simp [Curacao.calculate_tax, hex, hp, count_code, add_line_item, List.filter_append]
      · simp [Curacao.calculate_tax, hex, hp, count_code, add_line_item, List.filter_append]
    · simp [Curacao.calculate_tax, hex, count_code, add_line_item, List.filter_append]

/-- Closed instance of the amended C6 at a concrete exempt input. -/
theorem c6_witness :
    (Curacao.calculate_tax none empC6 3000 initState).1 = 0 ∧
    count_code (Curacao.calculate_tax none empC6 3000 initState).2.line_items ("TAX") =
      count_code initState.line_items ("TAX") + 1 :=
  ⟨((c6_curacao_three_paths none empC6 3000 initState).1 rfl).1,
   (c6_curacao_three_paths none empC6 3000 initState).2.2⟩

/-! ## Claim C7 -/

lemma lookup_rows_no_match (base : ℚ) :
    ∀ (rows : List (ℚ × ℚ × ℚ)) (acc : Option ℚ),
      (∀ x ∈ rows, ¬ (x.1 ≤ base ∧ base < x.2.1)) →
      Curacao.lookup_rows rows base acc =
        (match rows.getLast? with
         | some r => some r.2.2
         | none => acc) := by
  intro rows
  induction rows with
  | nil => intro acc _; rfl
  | cons x rest ih =>
    intro acc h
    obtain ⟨mn, mx, t⟩ := x
    have hx := h _ (List.mem_cons_self _ _)
    simp only [Curacao.lookup_rows, if_neg hx]
    rw [ih (some t) (fun y hy => h y (List.mem_cons_of_mem _ hy))]
    cases rest with
    | nil => rfl
    | cons y ys =>
      rw [List.getLast?_cons_cons]
      cases hgl : (y :: ys).getLast? with
      | none => simp [List.getLast?_eq_none_iff] at hgl
      | some r => rfl

lemma lookup_rows_first_match (base : ℚ) :
    ∀ (pre : List (ℚ × ℚ × ℚ)) (row : ℚ × ℚ × ℚ) (post : List (ℚ × ℚ × ℚ)) (acc : Option ℚ),
      (∀ r ∈ pre, ¬ (r.1 ≤ base ∧ base < r.2.1)) →
      row.1 ≤ base → base < row.2.1 →
      Curacao.lookup_rows (pre ++ row :: post) base acc = some row.2.2 := by
  intro pre
  induction pre with
  | nil =>
    intro row post acc _ h1 h2
    obtain ⟨mn, mx, t⟩ := row
    simp only [List.nil_append, Curacao.lookup_rows]
    rw [if_pos (⟨h1, h2⟩ : mn ≤ base ∧ base < mx)]
  | cons x rest ih =>
    intro row post acc h h1 h2
    obtain ⟨mn, mx, t⟩ := x
    simp only [List.cons_append, Curacao.lookup_rows,
      if_neg (h _ (List.mem_cons_self _ _))]
    exact ih row post (some t) (fun y hy => h y (List.mem_cons_of_mem _ hy)) h1 h2

/-- C7: the table lookup returns the tax of the first row whose half-open
range contains the base, the last row value when the base is at or beyond
every row maximum, and none when the table source is unavailable; in that
case the Curacao tax calculation falls back to the progressive brackets on
the same tax base instead of failing. -/
theorem c7_lookup_fallback :
    (∀ base : ℚ, Curacao.lookup_tax_from_table none base = none) ∧
    (∀ (base : ℚ) (pre : List (ℚ × ℚ × ℚ)) (row : ℚ × ℚ × ℚ) (post : List (ℚ × ℚ × ℚ)),
      (∀ r ∈ pre, ¬ (r.1 ≤ base ∧ base < r.2.1)) →
      row.1 ≤ base → base < row.2.1 →
      Curacao.lookup_tax_from_table (some (pre ++ row :: post)) base = some row.2.2) ∧
    (∀ (base : ℚ) (rows : List (ℚ × ℚ × ℚ)) (r : ℚ × ℚ × ℚ),
      (∀ x ∈ rows, x.2.1 ≤ base) →
      rows.getLast? = some r →
      Curacao.lookup_tax_from_table (some rows) base = some r.2.2) ∧
    (∀ (employee : EmployeeInput) (gross : ℚ) (s : CalcState),
      employee.tax_exempt = false → employee.tax_percentage = none →
      (Curacao.calculate_tax none employee gross s).1 =
        max ((calculate_progressive_tax (spec_tax_base gross) Curacao.TAX_BRACKETS).1 -
          Curacao.BASISAFTREK / 12) 0) := by
  refine ⟨fun base => rfl, ?_, ?_, ?_⟩
  · intro base pre row post h h1 h2
    exact lookup_rows_first_match base pre row post none h h1 h2
  · intro base rows r hall hlast
    have h := lookup_rows_no_match base rows none
      (fun x hx => by
        rintro ⟨-, hlt⟩
        exact absurd hlt (not_lt.mpr (hall x hx)))
    show Curacao.lookup_rows rows base none = some r.2.2
    rw [h, hlast]
  · intro employee gross s hex hp
    simp only [Curacao.calculate_tax, hex, hp, Bool.false_eq_true, if_false,
      korting_if_eq, Curacao.lookup_tax_from_table, spec_tax_base,
      spec_final_primary_premium, spec_premium_income,
      Curacao.calculate_premium_income_monthly]

/-- Closed instance of C7 on a two-row table and the bracket fallback. -/
theorem c7_witness :
    Curacao.lookup_tax_from_table none 100 = none ∧
    Curacao.lookup_tax_from_table
      (some [((0 : ℚ), (100 : ℚ), (5 : ℚ)), ((100 : ℚ), (200 : ℚ), (12 : ℚ))]) 150 =
      some 12 ∧
    Curacao.lookup_tax_from_table
      (some [((0 : ℚ), (100 : ℚ), (5 : ℚ)), ((100 : ℚ), (200 : ℚ), (12 : ℚ))]) 500 =
      some 12 ∧
    (Curacao.calculate_tax none empC2 4000 initState).1 =
      max ((calculate_progressive_tax (spec_tax_base 4000) Curacao.TAX_BRACKETS).1 -
        Curacao.BASISAFTREK / 12) 0 := by
  refine ⟨c7_lookup_fallback.1 100, ?_, ?_, c7_lookup_fallback.2.2.2 empC2 4000 initState rfl rfl⟩
  · have h := c7_lookup_fallback.2.1 150 [((0 : ℚ), (100 : ℚ), (5 : ℚ))]
      ((100 : ℚ), (200 : ℚ), (12 : ℚ)) []
      (by
        intro r hr
        rcases List.mem_singleton.mp hr with rfl
        rintro ⟨-, hlt⟩
        norm_num at hlt)
      (by norm_num) (by norm_num)
    simpa using h
  · have h := c7_lookup_fallback.2.2.1 500
      [((0 : ℚ), (100 : ℚ), (5 : ℚ)), ((100 : ℚ), (200 : ℚ), (12 : ℚ))]
      ((100 : ℚ), (200 : ℚ), (12 : ℚ))
      (by
        intro x hx
        rcases List.mem_cons.mp hx with rfl | hx
        · norm_num
        · rcases List.mem_singleton.mp hx with rfl
          norm_num)
      (by rfl)
    exact h

/-! ## Claim C10 -/

lemma ded_fold_items :
    ∀ (deds : List (String × ℚ)) (acc : ℚ × CalcState),
      ∃ extra, (deds.foldl (fun acc kv =>
          (acc.1 + kv.2,
            add_line_item acc.2 ("DED_" ++ kv.1.toUpper) (display_name kv.1) ("DEDUCTION")
              kv.2 none none none)) acc).2.line_items = acc.2.line_items ++ extra := by
  intro deds
  induction deds with
  | nil => intro acc; exact ⟨[], by simp⟩
  | cons kv rest ih =>
    intro acc
    obtain ⟨extra, hextra⟩ := ih ((acc.1 + kv.2,
      add_line_item acc.2 ("DED_" ++ kv.1.toUpper) (display_name kv.1) ("DEDUCTION")
        kv.2 none none none))
    refine ⟨⟨"DED_" ++ kv.1.toUpper, display_name kv.1, "DEDUCTION",
      round_currency kv.2, none, none, none⟩ :: extra, ?_⟩
    rw [List.foldl_cons, hextra]
    simp [add_line_item, List.append_assoc]

lemma other_ded_line_items (employee : EmployeeInput) (s : CalcState) :
    ∃ extra, (calculate_other_deductions employee s).2.line_items = s.line_items ++ extra :=
  ded_fold_items employee.deductions ((0 : ℚ), s)

lemma css_items (employee : EmployeeInput) (gross : ℚ) (s : CalcState)
    (haov : employee.aov_exempt = false) :
    ∃ i1 i2 i3 i4 : PayrollLineItem,
      (Curacao.calculate_social_security employee gross s).2.line_items =
        s.line_items ++ [i1, i2, i3, i4] ∧
      i1.code = "AOV_AWW" ∧ i1.category = "DEDUCTION" ∧
      i2.code = "KORTING" ∧ i2.category = "DEDUCTION" ∧
      i3.code = "BVZ" ∧ i3.category = "DEDUCTION" ∧
      i4.code = "AVBZ" ∧ i4.category = "DEDUCTION" := by
  by_cases hb : Curacao.calculate_premium_income_monthly gross * 12 <
      Curacao.BVZ_VRIJSTELLING_ANNUAL
  · simp only [Curacao.calculate_social_security, haov, hb, Bool.false_eq_true, if_false,
      if_true, add_line_item, List.append_assoc, List.cons_append, List.singleton_append,
      List.nil_append]
    exact ⟨_, _, _, _, rfl, rfl, rfl, rfl, rfl, rfl, rfl, rfl, rfl⟩
  · simp only [Curacao.calculate_social_security, haov, hb, Bool.false_eq_true, if_false,
      if_true, add_line_item, List.append_assoc, List.cons_append, List.singleton_append,
      List.nil_append]
    exact ⟨_, _, _, _, rfl, rfl, rfl, rfl, rfl, rfl, rfl, rfl, rfl⟩

lemma code_mem_other (c : Calculator) (employee : EmployeeInput) (i : PayrollLineItem)
    (hi : i ∈ (calculate c employee).line_items)
    (hcat : i.category = "DEDUCTION")
    (hcode : statutory_codes.contains i.code = false) :
    i.code ∈ (calculate c employee).other_deductions.map Prod.fst := by
  have hrfl : (calculate c employee).other_deductions =
      ((calculate c employee).line_items.filter
        (fun i => i.category == "DEDUCTION" && !(statutory_codes.contains i.code))).map
        (fun i => (i.code, i.amount)) := rfl
  rw [hrfl, List.map_map]
  refine List.mem_map.mpr ⟨i, List.mem_filter.mpr ⟨hi, ?_⟩, rfl⟩
  simp only [hcat]
  simp only [hcode, Bool.not_false, Bool.and_true, beq_self_eq_true]

lemma statutory_mem_codes (c : Calculator) (employee : EmployeeInput) :
    ∀ p ∈ (calculate c employee).statutory_deductions, p.1 ∈ statutory_codes := by
  intro p hp
  have hrfl : (calculate c employee).statutory_deductions =
      ((calculate c employee).line_items.filter
        (fun i => i.category == "DEDUCTION" && statutory_codes.contains i.code)).map
        (fun i => (i.code, i.amount)) := rfl
  rw [hrfl] at hp
  rcases List.mem_map.mp hp with ⟨i, hi, rfl⟩
  have h2 := (List.mem_filter.mp hi).2
  simp only [Bool.and_eq_true] at h2
  simpa using h2.2

/-- C10: the statutory grouping holds exactly the DEDUCTION items whose
code is in the fixed set TAX/AOV/AWW/CESANTIA/SOCIAL_SEC, every other
DEDUCTION item lands in other_deductions, and for the 2026 Curacao
calculator the AOV_AWW, KORTING, BVZ and AVBZ items are grouped under
other_deductions, never under statutory_deductions. -/
theorem c10_grouping (table : Option (List (ℚ × ℚ × ℚ))) (employee : EmployeeInput)
    (haov : employee.aov_exempt = false) :
    ((calculate (curacaoCalculator table) employee).statutory_deductions =
      ((calculate (curacaoCalculator table) employee).line_items.filter
        (fun i => i.category == "DEDUCTION" && statutory_codes.contains i.code)).map
        (fun i => (i.code, i.amount))) ∧
    ((calculate (curacaoCalculator table) employee).other_deductions =
      ((calculate (curacaoCalculator table) employee).line_items.filter
        (fun i => i.category == "DEDUCTION" && !(statutory_codes.contains i.code))).map
        (fun i => (i.code, i.amount))) ∧
    (∀ p ∈ (calculate (curacaoCalculator table) employee).statutory_deductions,
      p.1 ∈ statutory_codes) ∧
    "AOV_AWW" ∈ (calculate (curacaoCalculator table) employee).other_deductions.map Prod.fst ∧
    "KORTING" ∈ (calculate (curacaoCalculator table) employee).other_deductions.map Prod.fst ∧
    "BVZ" ∈ (calculate (curacaoCalculator table) employee).other_deductions.map Prod.fst ∧
    "AVBZ" ∈ (calculate (curacaoCalculator table) employee).other_deductions.map Prod.fst ∧
    (∀ cd ∈ [("AOV_AWW" : String), "KORTING", "BVZ", "AVBZ"],
      cd ∉ (calculate (curacaoCalculator table) employee).statutory_deductions.map Prod.fst) := by
  obtain ⟨i1, i2, i3, i4, heq, hc1, hk1, hc2, hk2, hc3, hk3, hc4, hk4⟩ :=
    css_items employee (Curacao.calculate_gross employee initState).1
      (Curacao.calculate_tax table employee (Curacao.calculate_gross employee initState).1
        (Curacao.calculate_gross employee initState).2).2 haov
  obtain ⟨extra, hextra⟩ := other_ded_line_items employee
    (Curacao.calculate_social_security employee (Curacao.calculate_gross employee initState).1
      (Curacao.calculate_tax table employee (Curacao.calculate_gross employee initState).1
        (Curacao.calculate_gross employee initState).2).2).2
  have hline : (calculate (curacaoCalculator table) employee).line_items =
      (calculate_other_deductions employee
        (Curacao.calculate_social_security employee
          (Curacao.calculate_gross employee initState).1
          (Curacao.calculate_tax table employee
            (Curacao.calculate_gross employee initState).1
            (Curacao.calculate_gross employee initState).2).2).2).2.line_items := rfl
  have hmem : ∀ i ∈ [i1, i2, i3, i4],
      i ∈ (calculate (curacaoCalculator table) employee).line_items := by
    intro i hi
    rw [hline, hextra, heq]
    simp only [List.mem_append]
    left
    right
    simpa using hi
  refine ⟨rfl, rfl, statutory_mem_codes _ _, ?_, ?_, ?_, ?_, ?_⟩
  · have := code_mem_other (curacaoCalculator table) employee i1
      (hmem i1 (by simp)) hk1 (by rw [hc1]; simp [statutory_codes])
    rwa [hc1] at this
  · have := code_mem_other (curacaoCalculator table) employee i2
      (hmem i2 (by simp)) hk2 (by rw [hc2]; simp [statutory_codes])
    rwa [hc2] at this
  · have := code_mem_other (curacaoCalculator table) employee i3
      (hmem i3 (by simp)) hk3 (by rw [hc3]; simp [statutory_codes])
    rwa [hc3] at this
  · have := code_mem_other (curacaoCalculator table) employee i4
      (hmem i4 (by simp)) hk4 (by rw [hc4]; simp [statutory_codes])
    rwa [hc4] at this
  · intro cd hcd hmem2
    rcases List.mem_map.mp hmem2 with ⟨p, hp, rfl⟩
    have hin := statutory_mem_codes (curacaoCalculator table) employee p hp
    simp only [List.mem_cons, List.not_mem_nil, or_false] at hcd
    rcases hcd with h | h | h | h <;> rw [h] at hin <;> simp [statutory_codes] at hin

/-- Closed instance of C10 at a concrete non-exempt input. -/
theorem c10_witness :
    "BVZ" ∈ (calculate (curacaoCalculator none) empC2).other_deductions.map Prod.fst ∧
    (∀ p ∈ (calculate (curacaoCalculator none) empC2).statutory_deductions,
      p.1 ∈ statutory_codes) :=
  ⟨(c10_grouping none empC2 rfl).2.2.2.2.2.1,
   (c10_grouping none empC2 rfl).2.2.1⟩
